import Mathlib

/-!
Verification of the intellinet-pdu-ctrl scraping/encoding core.

The definitions below are a shallow embedding of the Python sources
`src/intellinet_pdu_ctrl/utils.py`, `types.py`, `udp.py` and `api.py`:

* a parsed markup tree (`Element`) stands for an lxml `_Element`;
* Python exceptions are modelled by `PyErr` (the two
  `ValueError("Could not find ...")` raise sites in `utils.py` keep their
  exact message strings; `TypeError` stands for the error raised by
  `cls(**config)` on a wrong keyword set; `IndexError` for a failing list
  index; `AssertionError` for a failing `assert`);
* fallible Python code becomes `Except PyErr _`, evaluated in the same
  order as the Python expressions;
* Python `int(...)`/`float(...)`/`str(...)` on the decimal strings these
  codecs exchange are modelled by the executable `parseInt?`/`parsePyFloat?`
  and `renderInt`/`renderPyFloat` below, with floats represented by their
  (shortest-repr) decimal form `PyFloat`.
-/

/-- A parsed markup element: tag, attributes (in document order), text
content (`none` models lxml's `.text is None` for an empty element) and
child elements. -/
inductive Element where
  | mk (tag : String) (attrs : List (String × String)) (text : Option String)
       (children : List Element)

/-- Tag name of an element. -/
def Element.tag : Element → String
  | .mk t _ _ _ => t

/-- Attribute list of an element. -/
def Element.attrs : Element → List (String × String)
  | .mk _ a _ _ => a

/-- Text content of an element. -/
def Element.text : Element → Option String
  | .mk _ _ x _ => x

/-- Children of an element. -/
def Element.children : Element → List Element
  | .mk _ _ _ cs => cs

/-- Value of an attribute, if present (first binding wins, as in XML
where attribute names are unique). -/
def Element.attr (e : Element) (k : String) : Option String :=
  (e.attrs.find? (fun kv => kv.1 == k)).map (fun kv => kv.2)

mutual
/-- All elements of a subtree in document (pre) order, the root included:
the node set selected by the XPath `//*` when `e` is the root. -/
def allElems : Element → List Element
  | .mk t a x cs => .mk t a x cs :: allElemsList cs

/-- Document-order concatenation of `allElems` over a forest. -/
def allElemsList : List Element → List Element
  | [] => []
  | c :: cs => allElems c ++ allElemsList cs
end

/-- Proper descendants of an element in document order: the node set
selected by the XPath `.//*` relative to `e`. -/
def descendantsOf (e : Element) : List Element :=
  allElemsList e.children

/-- Python exceptions raised by the embedded code. -/
inductive PyErr where
  | valueError (msg : String)
  | typeError
  | indexError
  | assertionError
deriving DecidableEq, Repr

/-- Python `str(x)` for `x : Optional[str]`: `str(None)` is the literal
string `"None"`. -/
def pyStr : Option String → String
  | none => "None"
  | some s => s

/-- Embedding of `utils.find_input_value_in_xml`: evaluates the XPath
union `//*[@id='{id}']/@value | //*[@name='{id}']/@value` (all elements in
document order whose `id` or `name` attribute equals `id` and which carry a
`value` attribute) and returns the first result, raising
`ValueError("Could not find value for id: ...")` when the node set is
empty. -/
def find_input_value_in_xml (e : Element) (id : String) : Except PyErr String :=
  match (allElems e).filterMap
      (fun el =>
        if el.attr "id" == some id || el.attr "name" == some id then
          el.attr "value"
        else none) with
  | [] => .error (.valueError ("Could not find value for id: " ++ id))
  | v :: _ => .ok v

/-- Embedding of `utils.extract_text_from_child`: `e.find(child_name)`
(first direct child with the given tag), then `str(child.text)`; raises
`ValueError("Could not find child: ...")` when there is no such child. -/
def extract_text_from_child (e : Element) (child_name : String) : Except PyErr String :=
  match e.children.find? (fun c => c.tag == child_name) with
  | none => .error (.valueError ("Could not find child: " ++ child_name))
  | some c => .ok (pyStr c.text)

/-! ### Decimal rendering and parsing (Python `str`/`int`/`float`) -/

/-- The character of a decimal digit. -/
def digitChar (d : Nat) : Char := Char.ofNat (48 + d)

/-- Inverse of `digitChar` on `'0'..'9'`; `none` on any other character. -/
def charDigit? (c : Char) : Option Nat :=
  if c.isDigit then some (c.toNat - 48) else none

/-- Little-endian decimal digits with explicit fuel (so that the kernel
can evaluate it; the fuel `n` always suffices). -/
def digitsAux : Nat → Nat → List Nat
  | 0, _ => []
  | fuel + 1, n => if n = 0 then [] else n % 10 :: digitsAux fuel (n / 10)

/-- Little-endian decimal digits of a natural number, `[]` for zero. -/
def natDigits (n : Nat) : List Nat := digitsAux n n

/-- Python `str(n)` for a non-negative integer: most-significant-first
decimal digits, `"0"` for zero. -/
def renderNat (n : Nat) : String :=
  if n = 0 then "0" else ⟨((natDigits n).reverse).map digitChar⟩

/-- Decimal value of a character list, `none` if empty or any character is
not a digit. -/
def parseNatChars? (l : List Char) : Option Nat :=
  if l.isEmpty then none
  else l.foldlM (fun acc c => (charDigit? c).map (fun d => 10 * acc + d)) 0

/-- Python `int(s)`: an optional leading minus sign followed by decimal
digits. -/
def parseInt? (s : String) : Option Int :=
  if s.data.head? = some '-' then
    (parseNatChars? s.data.tail).map (fun n => -(n : Int))
  else
    (parseNatChars? s.data).map (fun n => (n : Int))

/-- Python `str(i)` for an integer. -/
def renderInt (i : Int) : String :=
  if i < 0 then "-" ++ renderNat i.natAbs else renderNat i.natAbs

/-- A non-negative Python float in its shortest-repr decimal form:
integer part and the digits after the decimal point. `str` on such a float
always prints a fraction (`str(26.0) == "26.0"`), so the canonical form of
a float value has a non-empty fraction with no superfluous trailing zero. -/
structure PyFloat where
  intPart : Nat
  fracDigits : List Nat
deriving DecidableEq, Repr

/-- The canonical (shortest-repr) forms: exactly the decimal strings
Python prints for non-negative floats in the plain-decimal range. -/
def PyFloat.canonical (f : PyFloat) : Prop :=
  f.fracDigits ≠ [] ∧ (∀ d ∈ f.fracDigits, d < 10) ∧
    (f.fracDigits = [0] ∨ f.fracDigits.getLast? ≠ some 0)

instance (f : PyFloat) : Decidable f.canonical := by
  unfold PyFloat.canonical; infer_instance

/-- Python `str(x)` for a non-negative float `x`. -/
def renderPyFloat (f : PyFloat) : String :=
  renderNat f.intPart ++ "." ++ ⟨f.fracDigits.map digitChar⟩

/-- Python `float(s)` for the decimal strings these codecs exchange:
digits with at most one decimal point, an optional (possibly empty)
fraction. -/
def parsePyFloat? (s : String) : Option PyFloat :=
  let ipart := s.data.takeWhile (fun c => c ≠ '.')
  match s.data.dropWhile (fun c => c ≠ '.') with
  | [] => (parseNatChars? ipart).map (fun n => ⟨n, []⟩)
  | _ :: fpart =>
    if fpart.contains '.' then none
    else do
      let ip ← parseNatChars? ipart
      let fd ← fpart.mapM charDigit?
      some ⟨ip, fd⟩

/-! ### Round-trip lemmas for the decimal codecs -/

theorem digitsAux_eq (fuel : Nat) :
    ∀ n : Nat, n ≤ fuel → digitsAux fuel n = Nat.digits 10 n := by
  induction fuel with
  | zero =>
    intro n h
    interval_cases n
    simp [digitsAux]
  | succ f ih =>
    intro n h
    by_cases hn : n = 0
    · subst hn; simp [digitsAux]
    · rw [digitsAux, if_neg hn, ih (n / 10) (by omega),
        Nat.digits_def' (b := 10) (by norm_num) (Nat.pos_of_ne_zero hn)]

theorem natDigits_eq (n : Nat) : natDigits n = Nat.digits 10 n :=
  digitsAux_eq n n le_rfl

theorem charDigit?_digitChar {d : Nat} (h : d < 10) :
    charDigit? (digitChar d) = some d := by
  interval_cases d <;> decide

theorem digitChar_ne_dot {d : Nat} (h : d < 10) : digitChar d ≠ '.' := by
  interval_cases d <;> decide

theorem digitChar_ne_minus {d : Nat} (h : d < 10) : digitChar d ≠ '-' := by
  interval_cases d <;> decide

theorem foldlM_digits (l : List Nat) (h : ∀ d ∈ l, d < 10) (acc : Nat) :
    (l.map digitChar).foldlM
        (fun acc c => (charDigit? c).map (fun d => 10 * acc + d)) acc =
      some (l.foldl (fun a d => 10 * a + d) acc) := by
  induction l generalizing acc with
  | nil => rfl
  | cons d t ih =>
    have hd : d < 10 := h d (List.mem_cons_self d t)
    simp only [List.map_cons, List.foldlM_cons, charDigit?_digitChar hd,
      Option.map_some', Option.bind_some, List.foldl_cons]
    exact ih (fun x hx => h x (List.mem_cons_of_mem d hx)) _

theorem foldl_reverse_digits (l : List Nat) (acc : Nat) :
    (l.reverse.foldl (fun a d => 10 * a + d) acc) =
      acc * 10 ^ l.length + Nat.ofDigits 10 l := by
  induction l generalizing acc with
  | nil => simp [Nat.ofDigits]
  | cons d t ih =>
    simp only [List.reverse_cons, List.foldl_append, List.foldl_cons,
      List.foldl_nil, ih, Nat.ofDigits_cons, List.length_cons]
    ring

theorem parseNatChars?_renderNat (n : Nat) :
    parseNatChars? (renderNat n).data = some n := by
  by_cases h : n = 0
  · subst h; decide
  · have hdig : ∀ d ∈ (Nat.digits 10 n).reverse, d < 10 := by
      intro d hd
      exact Nat.digits_lt_base (by norm_num) (List.mem_reverse.mp hd)
    have hne : Nat.digits 10 n ≠ [] := Nat.digits_ne_nil_iff_ne_zero.mpr h
    simp only [renderNat, if_neg h, natDigits_eq, parseNatChars?]
    rw [if_neg]
    · rw [foldlM_digits _ hdig, foldl_reverse_digits]
      simp [Nat.ofDigits_digits]
    · simp [List.isEmpty_iff, hne]

theorem renderNat_head_digit (n : Nat) :
    ∃ c cs, (renderNat n).data = c :: cs ∧ c ≠ '-' ∧ c ≠ '.' := by
  by_cases h : n = 0
  · subst h; exact ⟨'0', [], by decide, by decide, by decide⟩
  · have hne : Nat.digits 10 n ≠ [] := Nat.digits_ne_nil_iff_ne_zero.mpr h
    obtain ⟨d, t, ht⟩ := List.exists_cons_of_ne_nil (List.reverse_ne_nil_iff.mpr hne)
    have hmem : d ∈ (Nat.digits 10 n).reverse := ht ▸ List.mem_cons_self d t
    have hd : d < 10 := Nat.digits_lt_base (by norm_num) (List.mem_reverse.mp hmem)
    refine ⟨digitChar d, t.map digitChar, ?_, digitChar_ne_minus hd, digitChar_ne_dot hd⟩
    simp [renderNat, if_neg h, natDigits_eq, ht]

theorem parseInt?_renderInt (i : Int) : parseInt? (renderInt i) = some i := by
  by_cases h : i < 0
  · have hdata : ("-" ++ renderNat i.natAbs).data = '-' :: (renderNat i.natAbs).data := by
      simp [String.data_append]
    simp [renderInt, if_pos h, parseInt?, hdata, parseNatChars?_renderNat]
    rw [abs_of_neg h, neg_neg]
  · obtain ⟨c, cs, hdata, hminus, _⟩ := renderNat_head_digit i.natAbs
    have hhead : ¬((renderNat i.natAbs).data.head? = some '-') := by
      rw [hdata]; simp [hminus]
    simp [renderInt, if_neg h, parseInt?, hhead, parseNatChars?_renderNat]
    exact not_lt.mp h

theorem renderNat_data_no_dot (n : Nat) : ∀ c ∈ (renderNat n).data, c ≠ '.' := by
  by_cases h : n = 0
  · subst h; decide
  · intro c hc
    simp only [renderNat, if_neg h, natDigits_eq] at hc
    obtain ⟨d, hd, rfl⟩ := List.mem_map.mp hc
    exact digitChar_ne_dot (Nat.digits_lt_base (by norm_num) (List.mem_reverse.mp hd))

theorem takeWhile_no_dot (a b : List Char) (h : ∀ c ∈ a, c ≠ '.') :
    (a ++ '.' :: b).takeWhile (fun c => c ≠ '.') = a := by
  induction a with
  | nil => simp [List.takeWhile_cons]
  | cons x xs ih =>
    have hx : x ≠ '.' := h x (List.mem_cons_self x xs)
    simp only [List.cons_append, List.takeWhile_cons, decide_eq_true_eq]
    rw [if_pos hx, ih (fun c hc => h c (List.mem_cons_of_mem x hc))]

theorem dropWhile_no_dot (a b : List Char) (h : ∀ c ∈ a, c ≠ '.') :
    (a ++ '.' :: b).dropWhile (fun c => c ≠ '.') = '.' :: b := by
  induction a with
  | nil => simp [List.dropWhile_cons]
  | cons x xs ih =>
    have hx : x ≠ '.' := h x (List.mem_cons_self x xs)
    simp only [List.cons_append, List.dropWhile_cons, decide_eq_true_eq]
    rw [if_pos hx, ih (fun c hc => h c (List.mem_cons_of_mem x hc))]

theorem map_digitChar_no_dot (l : List Nat) (h : ∀ d ∈ l, d < 10) :
    (l.map digitChar).contains '.' = false := by
  induction l with
  | nil => rfl
  | cons d t ih =>
    have hd : digitChar d ≠ '.' := digitChar_ne_dot (h d (List.mem_cons_self d t))
    simp only [List.map_cons, List.contains_cons, Bool.or_eq_false_iff]
    exact ⟨by simpa using fun hh => hd hh.symm,
      ih (fun x hx => h x (List.mem_cons_of_mem d hx))⟩

theorem mapM_charDigit_map (l : List Nat) (h : ∀ d ∈ l, d < 10) :
    (l.map digitChar).mapM charDigit? = some l := by
  induction l with
  | nil => rfl
  | cons d t ih =>
    have hd : d < 10 := h d (List.mem_cons_self d t)
    rw [List.map_cons, List.mapM_cons, charDigit?_digitChar hd,
      ih (fun x hx => h x (List.mem_cons_of_mem d hx))]
    rfl

theorem renderPyFloat_data (f : PyFloat) :
    (renderPyFloat f).data = (renderNat f.intPart).data ++ '.' :: (f.fracDigits.map digitChar) := by
  simp [renderPyFloat, String.data_append]

theorem parsePyFloat?_renderPyFloat (f : PyFloat) (h : ∀ d ∈ f.fracDigits, d < 10) :
    parsePyFloat? (renderPyFloat f) = some f := by
  have hno := renderNat_data_no_dot f.intPart
  simp only [parsePyFloat?, renderPyFloat_data, takeWhile_no_dot _ _ hno,
    dropWhile_no_dot _ _ hno]
  rw [map_digitChar_no_dot _ h]
  simp only [Bool.false_eq_true, if_false]
  rw [parseNatChars?_renderNat, mapM_charDigit_map _ h]
  rfl

/-! ### Coercions (Python `int(...)`, `float(...)`, enum constructors) -/

/-- Python `int(s)` as an expression: raises `ValueError` on a
non-numeric literal. -/
def pyIntOf (s : String) : Except PyErr Int :=
  match parseInt? s with
  | some n => .ok n
  | none => .error (.valueError ("invalid literal for int with base 10: " ++ s))

/-- Python `float(s)` as an expression: raises `ValueError` on a
non-numeric literal. -/
def pyFloatOf (s : String) : Except PyErr PyFloat :=
  match parsePyFloat? s with
  | some f => .ok f
  | none => .error (.valueError ("could not convert string to float: " ++ s))

/-- Effectful map over a list, left to right, stopping at the first
raised error — the evaluation order of a Python loop or generator. -/
def exceptMapM (f : α → Except PyErr β) : List α → Except PyErr (List β)
  | [] => .ok []
  | a :: l => do
    let b ← f a
    let bs ← exceptMapM f l
    .ok (b :: bs)

/-! ### types.py: record types and codecs -/

/-- `types.OutletCommand`. -/
inductive OutletCommand where
  | ON
  | OFF
  | POWER_CYCLE_OFF_ON
deriving DecidableEq, Repr

/-- Numeric value of an `OutletCommand` member. -/
def OutletCommand.value : OutletCommand → Nat
  | .ON => 0
  | .OFF => 1
  | .POWER_CYCLE_OFF_ON => 2

/-- `types.OutletState`. -/
inductive OutletState where
  | ON
  | OFF
deriving DecidableEq, Repr

/-- Python `OutletState(s)`: lookup of an enum member by its string
value, `ValueError` otherwise. -/
def outletStateOf (s : String) : Except PyErr OutletState :=
  if s == "on" then .ok .ON
  else if s == "off" then .ok .OFF
  else .error (.valueError ("is not a valid OutletState: " ++ s))

/-- `types.UserVerifyResult`. -/
inductive UserVerifyResult where
  | NA
  | CREDENTIALS_CHANGED
  | CREDENTIALS_ERRORED
deriving DecidableEq, Repr

/-- Python `UserVerifyResult(n)`: lookup of an enum member by its numeric
value (`NA = 0`, `CREDENTIALS_CHANGED = 1`, `CREDENTIALS_ERRORED = 2`),
`ValueError` otherwise. -/
def userVerifyOf (n : Int) : Except PyErr UserVerifyResult :=
  if n = 0 then .ok .NA
  else if n = 1 then .ok .CREDENTIALS_CHANGED
  else if n = 2 then .ok .CREDENTIALS_ERRORED
  else .error (.valueError ("is not a valid UserVerifyResult: " ++ renderInt n))

/-- `types.ThresholdsConfig` (the final revision, in `types.py`). -/
structure ThresholdsConfig where
  warning_value_amps : PyFloat
  overload_value_amps : PyFloat
  warning_value_volts : Int
  overload_value_volts : Int
  warning_value_temp_under_celcius : Int
  warning_value_temp_over_celcius : Int
  warning_value_humidity_percent : Int
deriving DecidableEq, Repr

/-- `ThresholdsConfig.RAW_FIELD_NAMES`. -/
def ThresholdsConfig.RAW_FIELD_NAMES : List String :=
  ["wrncur", "ovrcur", "wrnvol", "ovrvol", "wrntp1", "wrntp2", "wrnhum"]

/-- `ThresholdsConfig.from_xml`: seven `find_input_value_in_xml` lookups
with `float`/`int` coercion, evaluated in source order. -/
def ThresholdsConfig.from_xml (e : Element) : Except PyErr ThresholdsConfig := do
  let s1 ← find_input_value_in_xml e "wrncur"
  let warning_value_amps ← pyFloatOf s1
  let s2 ← find_input_value_in_xml e "ovrcur"
  let overload_value_amps ← pyFloatOf s2
  let s3 ← find_input_value_in_xml e "wrnvol"
  let warning_value_volts ← pyIntOf s3
  let s4 ← find_input_value_in_xml e "ovrvol"
  let overload_value_volts ← pyIntOf s4
  let s5 ← find_input_value_in_xml e "wrntp1"
  let warning_value_temp_under_celcius ← pyIntOf s5
  let s6 ← find_input_value_in_xml e "wrntp2"
  let warning_value_temp_over_celcius ← pyIntOf s6
  let s7 ← find_input_value_in_xml e "wrnhum"
  let warning_value_humidity_percent ← pyIntOf s7
  pure ⟨warning_value_amps, overload_value_amps, warning_value_volts,
    overload_value_volts, warning_value_temp_under_celcius,
    warning_value_temp_over_celcius, warning_value_humidity_percent⟩

/-- `ThresholdsConfig.to_dict`: the seven field codes mapped to the
stringified values, in insertion order. -/
def ThresholdsConfig.to_dict (c : ThresholdsConfig) : List (String × String) :=
  [("wrncur", renderPyFloat c.warning_value_amps),
   ("ovrcur", renderPyFloat c.overload_value_amps),
   ("wrnvol", renderInt c.warning_value_volts),
   ("ovrvol", renderInt c.overload_value_volts),
   ("wrntp1", renderInt c.warning_value_temp_under_celcius),
   ("wrntp2", renderInt c.warning_value_temp_over_celcius),
   ("wrnhum", renderInt c.warning_value_humidity_percent)]

/-- `types.IndividualOutletConfig`. -/
structure IndividualOutletConfig where
  name : String
  turn_on_delay : Int
  turn_off_delay : Int
deriving DecidableEq, Repr

/-- `types.AllOutletsConfig`: exactly eight outlet configurations. -/
structure AllOutletsConfig where
  outlet0 : IndividualOutletConfig
  outlet1 : IndividualOutletConfig
  outlet2 : IndividualOutletConfig
  outlet3 : IndividualOutletConfig
  outlet4 : IndividualOutletConfig
  outlet5 : IndividualOutletConfig
  outlet6 : IndividualOutletConfig
  outlet7 : IndividualOutletConfig
deriving DecidableEq, Repr

/-- `AllOutletsConfig.outlets`: the eight outlets in index order. -/
def AllOutletsConfig.outlets (c : AllOutletsConfig) : List IndividualOutletConfig :=
  [c.outlet0, c.outlet1, c.outlet2, c.outlet3, c.outlet4, c.outlet5, c.outlet6, c.outlet7]

mutual
/-- Node contribution to the XPath `.//td/input/@value`: emit the `value`
attribute of an `input` element whose parent is a (descendant) `td`, then
recurse; pre-order traversal reproduces document order of the selected
attribute nodes. -/
def tdVals (parentIsTd : Bool) : Element → List String
  | .mk t a x cs =>
    (if parentIsTd && t == "input" then
      match (Element.mk t a x cs).attr "value" with
      | some v => [v]
      | none => []
    else []) ++ tdValsList (t == "td") cs

/-- `tdVals` over a forest of siblings. -/
def tdValsList (parentIsTd : Bool) : List Element → List String
  | [] => []
  | c :: cs => tdVals parentIsTd c ++ tdValsList parentIsTd cs
end

/-- The XPath `.//td/input/@value` relative to a row: all `value`
attributes, in document order, of `input` elements nested in table cells
below the row (the row itself is not a candidate cell). -/
def tdInputValues (row : Element) : List String :=
  tdValsList false row.children

/-- The row predicate of the XPath `.//tr[td/input/@value]`: a `tr` with
at least one `td` child containing at least one `input` child that
carries a `value` attribute. -/
def qualifies (r : Element) : Bool :=
  r.tag == "tr" && r.children.any (fun td =>
    td.tag == "td" && td.children.any (fun i =>
      i.tag == "input" && (i.attr "value").isSome))

/-- The XPath `.//tr[td/input/@value]` relative to the document root: the
qualifying rows in document order. -/
def xpathRows (e : Element) : List Element :=
  (descendantsOf e).filter qualifies

/-- One iteration of the `AllOutletsConfig.from_xml` loop body:
`IndividualOutletConfig(name=values[0], turn_on_delay=int(values[1]),
turn_off_delay=int(values[2]))`, with Python's evaluation order
(`IndexError` on a short row, `ValueError` on a bad literal). -/
def decodeRow (r : Element) : Except PyErr IndividualOutletConfig := do
  let vs := tdInputValues r
  let name ← match vs[0]? with
    | some v => Except.ok v
    | none => Except.error PyErr.indexError
  let s1 ← match vs[1]? with
    | some v => Except.ok v
    | none => Except.error PyErr.indexError
  let turn_on_delay ← pyIntOf s1
  let s2 ← match vs[2]? with
    | some v => Except.ok v
    | none => Except.error PyErr.indexError
  let turn_off_delay ← pyIntOf s2
  pure ⟨name, turn_on_delay, turn_off_delay⟩

/-- Python `cls(**config)` with keys `outlet0..outlet{n-1}`: succeeds
exactly when the loop produced eight entries, raising `TypeError` (missing
or unexpected keyword argument) otherwise. -/
def mkAllOutlets (cs : List IndividualOutletConfig) : Except PyErr AllOutletsConfig :=
  match cs with
  | [c0, c1, c2, c3, c4, c5, c6, c7] => .ok ⟨c0, c1, c2, c3, c4, c5, c6, c7⟩
  | _ => .error .typeError

/-- `AllOutletsConfig.from_xml`: decode every qualifying row in document
order, then construct the record from the positional results. -/
def AllOutletsConfig.from_xml (e : Element) : Except PyErr AllOutletsConfig := do
  let cfgs ← exceptMapM decodeRow (xpathRows e)
  mkAllOutlets cfgs

/-- `types.PDUStatus` (the final revision, in `types.py`, which carries
the user-credential-verification result). -/
structure PDUStatus where
  current_amps : PyFloat
  degree_celcius : Int
  humidity_percent : Int
  status : String
  outlet_states : List OutletState
  user_verify_result : UserVerifyResult
deriving DecidableEq, Repr

/-- `PDUStatus.from_xml`: fixed-name child lookups with coercion, in
source order. -/
def PDUStatus.from_xml (e : Element) : Except PyErr PDUStatus := do
  let s1 ← extract_text_from_child e "cur0"
  let current_amps ← pyFloatOf s1
  let s2 ← extract_text_from_child e "tempCBan"
  let degree_celcius ← pyIntOf s2
  let s3 ← extract_text_from_child e "humBan"
  let humidity_percent ← pyIntOf s3
  let status ← extract_text_from_child e "stat0"
  let outlet_states ← exceptMapM (fun i => do
      let s ← extract_text_from_child e ("outletStat" ++ renderNat i)
      outletStateOf s) (List.range 8)
  let s4 ← extract_text_from_child e "userVerifyRes"
  let n ← pyIntOf s4
  let user_verify_result ← userVerifyOf n
  pure ⟨current_amps, degree_celcius, humidity_percent, status,
    outlet_states, user_verify_result⟩

/-- `types.NetworkConfiguration`. -/
structure NetworkConfiguration where
  hostname : String
  ip_address : String
  subnet_mask : String
  gateway : String
  enable_dhcp : Bool
  primary_dns_ip : String
  secondary_dns_ip : String
deriving DecidableEq, Repr

/-- `NetworkConfiguration.from_xml`: `e.xpath("//*[@id='dhcp']")[0]`
(first element with `id` attribute `dhcp`, `IndexError` if none), DHCP
signalled by presence of the `checked` attribute, then six
`find_input_value_in_xml` lookups. -/
def NetworkConfiguration.from_xml (e : Element) : Except PyErr NetworkConfiguration := do
  let dhcpCb ← match (allElems e).find? (fun el => el.attr "id" == some "dhcp") with
    | some el => Except.ok el
    | none => Except.error PyErr.indexError
  let enable_dhcp := (dhcpCb.attr "checked").isSome
  let hostname ← find_input_value_in_xml e "host"
  let ip_address ← find_input_value_in_xml e "ip"
  let subnet_mask ← find_input_value_in_xml e "mask"
  let gateway ← find_input_value_in_xml e "gate"
  let primary_dns_ip ← find_input_value_in_xml e "dns1"
  let secondary_dns_ip ← find_input_value_in_xml e "dns2"
  pure ⟨hostname, ip_address, subnet_mask, gateway, enable_dhcp,
    primary_dns_ip, secondary_dns_ip⟩

/-- `NetworkConfiguration.to_dict`: six field codes in insertion order;
the `dhcp` key is added only when the flag is true. -/
def NetworkConfiguration.to_dict (c : NetworkConfiguration) : List (String × String) :=
  [("host", c.hostname),
   ("ip", c.ip_address),
   ("mask", c.subnet_mask),
   ("gate", c.gateway),
   ("dns1", c.primary_dns_ip),
   ("dns2", c.secondary_dns_ip)] ++
  (if c.enable_dhcp then [("dhcp", "on")] else [])

/-! ### udp.py: sideband framing and checksum -/

/-- `udp.ones_comp_add`: `c = a + b; (c & 0xFF) + (c >> 16)` on
non-negative Python integers. -/
def ones_comp_add (a b : Nat) : Nat :=
  (a + b) % 256 + (a + b) / 65536

/-- `udp.with_checksum`: fold `ones_comp_add` over the message starting
from zero and append the resulting byte. -/
def with_checksum (msg : List Nat) : List Nat :=
  msg ++ [msg.foldl ones_comp_add 0]

/-- The outbound datagram of `IntellinetUDPClient.get_voltage`:
`with_checksum(b"\xa7\x40\x06\x00")`. -/
def voltage_query_frame : List Nat :=
  with_checksum [0xa7, 0x40, 0x06, 0x00]

/-- Reply validation and extraction of `IntellinetUDPClient.get_voltage`:
`assert len(data) == 13`, `assert data[0:4] == b"\xa7\x42\x06\x08"`,
`assert data == with_checksum(data[:-1])`, then
`payload = data[4:12]; voltage = payload[0]`. -/
def get_voltage_reply (data : List Nat) : Except PyErr Nat :=
  if data.length ≠ 13 then .error .assertionError
  else if data.take 4 ≠ [0xa7, 0x42, 0x06, 0x08] then .error .assertionError
  else if data ≠ with_checksum data.dropLast then .error .assertionError
  else .ok (((data.drop 4).take 8).getD 0 0)

/-- Modelled from the spec: the 8-bit ones-complement sum with end-around
carry that section 4.4 and the glossary describe for the sideband checksum
(repeated addition in which a carry out of the low byte is folded back
into the low byte; the final value is the low 8 bits). No such function
exists in the source; this is the reference the claim about
`with_checksum` is compared against. -/
def onesCompSumSpec (msg : List Nat) : Nat :=
  (msg.foldl (fun a b => (a + b) % 256 + (a + b) / 256) 0) % 256

/-! ### api.py: endpoints, outlet-config encoding, credential change -/

/-- `api.PDUEndpoints`. -/
inductive PDUEndpoints where
  | status
  | pdu
  | system
  | outlet
  | config_pdu
  | thresholds
  | users
  | network
deriving DecidableEq, Repr

/-- The endpoint path of each `PDUEndpoints` member. -/
def PDUEndpoints.value : PDUEndpoints → String
  | .status => "status.xml"
  | .pdu => "info_PDU.htm"
  | .system => "info_system.htm"
  | .outlet => "control_outlet.htm"
  | .config_pdu => "config_PDU.htm"
  | .thresholds => "config_threshold.htm"
  | .users => "config_user.htm"
  | .network => "config_network.htm"

/-- The form data built by `IPU.set_config_pdu`: for outlet number `i`,
the keys `otlt{i}`, `ondly{i}`, `ofdly{i}` (the `asdict` field order
`name`, `turn_on_delay`, `turn_off_delay` sent through the translation
table) with the stringified values. -/
def set_config_pdu_data (cfg : AllOutletsConfig) : List (String × String) :=
  cfg.outlets.enum.flatMap (fun p =>
    [("otlt" ++ renderNat p.1, p.2.name),
     ("ondly" ++ renderNat p.1, renderInt p.2.turn_on_delay),
     ("ofdly" ++ renderNat p.1, renderInt p.2.turn_off_delay)])

/-- The mutable authentication state of an `IPU` facade instance: the
currently stored transport credentials (username, password). -/
structure IPUState where
  credentials : String × String
deriving DecidableEq, Repr

/-- Modelled from the spec: the error taxonomy names
`CredentialVerificationError` for a credential change whose post-change
status read does not confirm the change; no such class exists in
`src/intellinet_pdu_ctrl/api.py`. -/
inductive ApiError where
  | credentialVerificationError
deriving DecidableEq, Repr

/-- Modelled from the spec: `change_credentials` is absent from
`src/intellinet_pdu_ctrl/api.py` (only the `UserVerifyResult`
declarations supporting it exist, in `types.py`). Per section 4.3 of the
spec it POSTs the old and new credentials to the users endpoint, then
reads the status and checks the user-verify result: on
`CREDENTIALS_CHANGED` the stored transport credentials become the new
ones; on any other result a `CredentialVerificationError` is raised and
the stored credentials are left unchanged. The device's answer is passed
in as the `user_verify_result` of the post-change status read. -/
def change_credentials (st : IPUState) (newCreds : String × String)
    (verify : UserVerifyResult) : IPUState × Except ApiError Unit :=
  if verify = .CREDENTIALS_CHANGED then ({ credentials := newCreds }, .ok ())
  else (st, .error .credentialVerificationError)

/-- Modelled from the spec: the endpoint `change_credentials` POSTs to is
the users endpoint. -/
def change_credentials_endpoint : PDUEndpoints := .users

/-! ### Modelled device-markup fixture generators (spec section 8) -/

/-- An input element carrying a field code as `id` and a field value as
`value`. -/
def mkInputField (kv : String × String) : Element :=
  .mk "input" [("id", kv.1), ("value", kv.2)] none []

/-- Modelled from the spec: the round-trip fixture generator for
`ThresholdsConfig` renders each encoded form field as an input element
whose `id` attribute is the device field code and whose `value` attribute
is the encoded value — the field-naming convention
`ThresholdsConfig.from_xml` reads back. -/
def renderForm (fields : List (String × String)) : Element :=
  .mk "form" [] none (fields.map mkInputField)

/-- The DHCP checkbox of the device's network page: presence of the
`checked` attribute, not its value, is the signal. -/
def dhcpCheckbox (checked : Bool) : Element :=
  .mk "input" (("id", "dhcp") :: (if checked then [("checked", "checked")] else [])) none []

/-- Modelled from the spec: the round-trip fixture generator for
`NetworkConfiguration` renders every encoded field except `dhcp` as an
input element (`id` = field code, `value` = value) and always renders the
device's DHCP checkbox, with the `checked` marker attribute present
exactly when the encoded mapping contains the `dhcp` key. -/
def renderNetworkForm (fields : List (String × String)) : Element :=
  .mk "form" [] none
    ((fields.filter (fun kv => kv.1 != "dhcp")).map mkInputField ++
      [dhcpCheckbox (fields.lookup "dhcp").isSome])

/-- A table cell holding one input field of the outlet-configuration
page, carrying the device field name and the encoded value. -/
def outletCell (fieldName : String) (fields : List (String × String)) : Element :=
  .mk "td" [] none
    [.mk "input" [("name", fieldName), ("value", (fields.lookup fieldName).getD "")] none []]

/-- One rendered row of the modelled `config_PDU.htm` fixture: its three
input values (in table cells, in document order) are the `otlt{i}`,
`ondly{i}`, `ofdly{i}` fields of the encoded mapping. -/
def renderOutletRow (fields : List (String × String)) (i : Nat) : Element :=
  .mk "tr" [] none
    [outletCell ("otlt" ++ renderNat i) fields,
     outletCell ("ondly" ++ renderNat i) fields,
     outletCell ("ofdly" ++ renderNat i) fields]

/-- Modelled from the spec: the round-trip fixture generator for
`AllOutletsConfig` mirrors the device's `config_PDU.htm` page: one table
row per outlet index 0..7 (`renderOutletRow`). -/
def renderOutletsForm (fields : List (String × String)) : Element :=
  .mk "table" [] none ((List.range 8).map (renderOutletRow fields))

/-! ### Concrete scenario documents -/

/-- A status-document child element with text content. -/
def statusChild (tag txt : String) : Element := .mk tag [] (some txt) []

/-- The fixture status document of the end-to-end status scenario. -/
def statusDoc : Element :=
  .mk "response" [] none
    [statusChild "cur0" "0.5", statusChild "tempCBan" "26", statusChild "humBan" "27",
     statusChild "stat0" "normal",
     statusChild "outletStat0" "on", statusChild "outletStat1" "on",
     statusChild "outletStat2" "off", statusChild "outletStat3" "on",
     statusChild "outletStat4" "on", statusChild "outletStat5" "on",
     statusChild "outletStat6" "on", statusChild "outletStat7" "on",
     statusChild "userVerifyRes" "0"]

/-- The same status document with the `outletStat5` child removed. -/
def statusDocNoStat5 : Element :=
  .mk "response" [] none
    [statusChild "cur0" "0.5", statusChild "tempCBan" "26", statusChild "humBan" "27",
     statusChild "stat0" "normal",
     statusChild "outletStat0" "on", statusChild "outletStat1" "on",
     statusChild "outletStat2" "off", statusChild "outletStat3" "on",
     statusChild "outletStat4" "on",
     statusChild "outletStat6" "on", statusChild "outletStat7" "on",
     statusChild "userVerifyRes" "0"]

/-- The same status document with a `stat0` child that is present but has
no text content. -/
def statusDocEmptyStat0 : Element :=
  .mk "response" [] none
    [statusChild "cur0" "0.5", statusChild "tempCBan" "26", statusChild "humBan" "27",
     Element.mk "stat0" [] none [],
     statusChild "outletStat0" "on", statusChild "outletStat1" "on",
     statusChild "outletStat2" "off", statusChild "outletStat3" "on",
     statusChild "outletStat4" "on", statusChild "outletStat5" "on",
     statusChild "outletStat6" "on", statusChild "outletStat7" "on",
     statusChild "userVerifyRes" "0"]

/-- A concrete qualifying outlet-configuration row. -/
def outletRowDoc (nm d1 d2 : String) : Element :=
  .mk "tr" [] none
    [.mk "td" [] none [.mk "input" [("value", nm)] none []],
     .mk "td" [] none [.mk "input" [("value", d1)] none []],
     .mk "td" [] none [.mk "input" [("value", d2)] none []]]

/-- A concrete outlet-configuration document with eight qualifying rows. -/
def outletsDoc8 : Element :=
  .mk "table" [] none
    [outletRowDoc "a0" "0" "10", outletRowDoc "a1" "1" "11",
     outletRowDoc "a2" "2" "12", outletRowDoc "a3" "3" "13",
     outletRowDoc "a4" "4" "14", outletRowDoc "a5" "5" "15",
     outletRowDoc "a6" "6" "16", outletRowDoc "a7" "7" "17"]

/-- A concrete outlet-configuration document with a single qualifying row. -/
def outletsDoc1 : Element :=
  .mk "table" [] none [outletRowDoc "a0" "0" "10"]

/-- A concrete thresholds configuration with canonical float fields. -/
def thrFixture : ThresholdsConfig :=
  ⟨⟨0, [5]⟩, ⟨12, [3, 4]⟩, 220, 240, -5, 40, 85⟩

/-! ### Helper lemmas about the `Except` decoders -/

theorem ok_bind {α β : Type} (a : α) (f : α → Except PyErr β) :
    (Except.ok a >>= f) = f a := rfl

theorem except_bind_ok {α β : Type} {x : Except PyErr α} {f : α → Except PyErr β} {b : β}
    (h : (x >>= f) = .ok b) : ∃ a, x = .ok a ∧ f a = .ok b := by
  cases x with
  | error e => exact Except.noConfusion h
  | ok a => exact ⟨a, rfl, h⟩

theorem exceptMapM_ok_length {α β : Type} {f : α → Except PyErr β} :
    ∀ {l : List α} {res : List β}, exceptMapM f l = .ok res → res.length = l.length := by
  intro l
  induction l with
  | nil =>
    intro res h
    cases h
    rfl
  | cons a t ih =>
    intro res h
    obtain ⟨b, hb, h⟩ := except_bind_ok h
    obtain ⟨bs, hbs, h⟩ := except_bind_ok h
    cases h
    simp [ih hbs]

theorem exceptMapM_ok_mem {α β : Type} {f : α → Except PyErr β} :
    ∀ {l : List α} {res : List β}, exceptMapM f l = .ok res →
      ∀ a ∈ l, ∃ b, f a = .ok b := by
  intro l
  induction l with
  | nil =>
    intro res _ a ha
    exact absurd ha (List.not_mem_nil a)
  | cons x t ih =>
    intro res h a ha
    obtain ⟨b, hb, h⟩ := except_bind_ok h
    obtain ⟨bs, hbs, _⟩ := except_bind_ok h
    rcases List.mem_cons.mp ha with rfl | hmem
    · exact ⟨b, hb⟩
    · exact ih hbs a hmem

theorem mkAllOutlets_outlets {cs : List IndividualOutletConfig} {cfg : AllOutletsConfig}
    (h : mkAllOutlets cs = .ok cfg) : cfg.outlets = cs := by
  match cs with
  | [c0, c1, c2, c3, c4, c5, c6, c7] =>
    cases h
    rfl
  | [] => exact Except.noConfusion h
  | [c0] => exact Except.noConfusion h
  | [c0, c1] => exact Except.noConfusion h
  | [c0, c1, c2] => exact Except.noConfusion h
  | [c0, c1, c2, c3] => exact Except.noConfusion h
  | [c0, c1, c2, c3, c4] => exact Except.noConfusion h
  | [c0, c1, c2, c3, c4, c5] => exact Except.noConfusion h
  | [c0, c1, c2, c3, c4, c5, c6] => exact Except.noConfusion h
  | c0 :: c1 :: c2 :: c3 :: c4 :: c5 :: c6 :: c7 :: c8 :: t => exact Except.noConfusion h

theorem mkAllOutlets_wrong_len {cs : List IndividualOutletConfig} (h : cs.length ≠ 8) :
    mkAllOutlets cs = .error .typeError := by
  match cs with
  | [c0, c1, c2, c3, c4, c5, c6, c7] => exact absurd rfl h
  | [] => rfl
  | [c0] => rfl
  | [c0, c1] => rfl
  | [c0, c1, c2] => rfl
  | [c0, c1, c2, c3] => rfl
  | [c0, c1, c2, c3, c4] => rfl
  | [c0, c1, c2, c3, c4, c5] => rfl
  | [c0, c1, c2, c3, c4, c5, c6] => rfl
  | c0 :: c1 :: c2 :: c3 :: c4 :: c5 :: c6 :: c7 :: c8 :: t => rfl

theorem allOutlets_from_xml_bind (e : Element) :
    AllOutletsConfig.from_xml e =
      (exceptMapM decodeRow (xpathRows e) >>= mkAllOutlets) := rfl

theorem pyFloatOf_render (f : PyFloat) (h : ∀ d ∈ f.fracDigits, d < 10) :
    pyFloatOf (renderPyFloat f) = .ok f := by
  simp [pyFloatOf, parsePyFloat?_renderPyFloat f h]

theorem pyIntOf_render (i : Int) : pyIntOf (renderInt i) = .ok i := by
  simp [pyIntOf, parseInt?_renderInt]

/-! ### Claim theorems -/

/-- C1: the claim that the checksum byte appended by `with_checksum` is
the end-around-carry ones-complement sum fails on the code. On the
message `FF 01` the code appends `00` — `ones_comp_add` adds `(c >> 16)`,
not `(c >> 8)`, so its carry term is always zero for byte inputs and the
fold is a plain sum modulo 256 — while the end-around-carry sum of the
spec (`onesCompSumSpec`) is `01`. -/
theorem with_checksum_failing_input :
    with_checksum [255, 1] = [255, 1, 0] ∧ onesCompSumSpec [255, 1] = 1 := by
  decide

/-- C4: the modelled `change_credentials` posts to the users endpoint and,
after the status read, updates the stored transport credentials exactly
when the reported user-verify result is `CREDENTIALS_CHANGED`; on any
other result (e.g. `CREDENTIALS_ERRORED`) it raises
`CredentialVerificationError` and the stored credentials are exactly the
old ones. -/
theorem change_credentials_spec :
    ∀ (st : IPUState) (newCreds : String × String),
      change_credentials st newCreds .CREDENTIALS_CHANGED =
        ({ credentials := newCreds }, .ok ()) ∧
      (∀ verify, verify ≠ .CREDENTIALS_CHANGED →
        change_credentials st newCreds verify =
          (st, .error .credentialVerificationError)) ∧
      change_credentials_endpoint.value = "config_user.htm" := by
  intro st newCreds
  refine ⟨rfl, ?_, rfl⟩
  intro verify hv
  simp [change_credentials, hv]

/-- Witness for C4 at a concrete state: a `CREDENTIALS_ERRORED` status
read leaves the stored credentials unchanged and raises the error. -/
theorem change_credentials_spec_witness :
    change_credentials ⟨("tutor", "kalman")⟩ ("new", "pw") .CREDENTIALS_ERRORED =
      (⟨("tutor", "kalman")⟩, .error .credentialVerificationError) :=
  (change_credentials_spec ⟨("tutor", "kalman")⟩ ("new", "pw")).2.1 _ (by decide)

/-- C5: decoding the fixture status document (`cur0=0.5`, `tempCBan=26`,
`humBan=27`, `stat0=normal`, `outletStat0..7 = on,on,off,on,on,on,on,on`,
`userVerifyRes=0`) yields the expected `PDUStatus`, whose
user-credential-verification result field is `NA` (the source's name for
the not-applicable member, value 0). -/
theorem pdu_status_scenario :
    PDUStatus.from_xml statusDoc =
      .ok ⟨⟨0, [5]⟩, 26, 27, "normal",
        [.ON, .ON, .OFF, .ON, .ON, .ON, .ON, .ON], .NA⟩ := by
  rfl

/-- C9: the encoded `NetworkConfiguration` mapping holds the `dhcp` key
(with value `"on"`) exactly when `enable_dhcp` is true — when the flag is
false the key is entirely absent — and the six other field codes are the
keys present in both cases. -/
theorem network_to_dict_dhcp :
    ∀ c : NetworkConfiguration,
      c.to_dict.lookup "dhcp" = (if c.enable_dhcp then some "on" else none) ∧
      c.to_dict.map Prod.fst =
        ["host", "ip", "mask", "gate", "dns1", "dns2"] ++
          (if c.enable_dhcp then ["dhcp"] else []) := by
  intro c
  cases h : c.enable_dhcp <;> simp [NetworkConfiguration.to_dict, h, List.lookup]

/-- C10: when the named child exists but has no text content,
`extract_text_from_child` does not raise: it returns `str(None)`, the
literal string `"None"`; consequently a status document whose `stat0`
element is present but empty decodes to a `PDUStatus` with status
`"None"` instead of failing. -/
theorem extract_text_empty_child :
    (∀ (e : Element) (name : String) (c : Element),
        e.children.find? (fun x => x.tag == name) = some c → c.text = none →
        extract_text_from_child e name = .ok "None") ∧
    PDUStatus.from_xml statusDocEmptyStat0 =
      .ok ⟨⟨0, [5]⟩, 26, 27, "None",
        [.ON, .ON, .OFF, .ON, .ON, .ON, .ON, .ON], .NA⟩ := by
  constructor
  · intro e name c hfind htext
    simp [extract_text_from_child, hfind, htext, pyStr]
  · rfl

/-- Witness for C10 at a concrete document: the empty `stat0` child of
`statusDocEmptyStat0` extracts to the string `"None"`. -/
theorem extract_text_empty_child_witness :
    extract_text_from_child statusDocEmptyStat0 "stat0" = .ok "None" :=
  extract_text_empty_child.1 statusDocEmptyStat0 "stat0" (Element.mk "stat0" [] none [])
    rfl rfl

/-- C8: decode never substitutes a default for a missing required field:
`find_input_value_in_xml` fails with the not-found `ValueError` when no
element carries a matching `id` or `name` attribute; a status document
without an `outletStat5` child never decodes to a `PDUStatus`; and on the
concrete document missing `outletStat5` the decode fails with exactly the
not-found error for that child. -/
theorem missing_field_fails :
    (∀ (e : Element) (id : String),
        (∀ el ∈ allElems e, el.attr "id" ≠ some id ∧ el.attr "name" ≠ some id) →
        find_input_value_in_xml e id =
          .error (.valueError ("Could not find value for id: " ++ id))) ∧
    (∀ e : Element, e.children.find? (fun c => c.tag == "outletStat5") = none →
        ∀ s, PDUStatus.from_xml e ≠ .ok s) ∧
    PDUStatus.from_xml statusDocNoStat5 =
      .error (.valueError "Could not find child: outletStat5") := by
  refine ⟨?_, ?_, rfl⟩
  · intro e id h
    have hnil : (allElems e).filterMap
        (fun el =>
          if el.attr "id" == some id || el.attr "name" == some id then
            el.attr "value"
          else none) = [] := by
      refine List.filterMap_eq_nil_iff.mpr (fun el hel => ?_)
      obtain ⟨h1, h2⟩ := h el hel
      rw [if_neg]
      simp [h1, h2]
    unfold find_input_value_in_xml
    rw [hnil]
  · intro e hfind s hok
    unfold PDUStatus.from_xml at hok
    obtain ⟨s1, _, hok⟩ := except_bind_ok hok
    obtain ⟨amps, _, hok⟩ := except_bind_ok hok
    obtain ⟨s2, _, hok⟩ := except_bind_ok hok
    obtain ⟨deg, _, hok⟩ := except_bind_ok hok
    obtain ⟨s3, _, hok⟩ := except_bind_ok hok
    obtain ⟨hum, _, hok⟩ := except_bind_ok hok
    obtain ⟨st, _, hok⟩ := except_bind_ok hok
    obtain ⟨sts, hsts, hok⟩ := except_bind_ok hok
    obtain ⟨b, hb⟩ := exceptMapM_ok_mem hsts 5 (by decide)
    obtain ⟨v, hv, _⟩ := except_bind_ok hb
    have hstr : ("outletStat" ++ renderNat 5) = "outletStat5" := rfl
    rw [hstr] at hv
    have herr : extract_text_from_child e "outletStat5" =
        .error (.valueError "Could not find child: outletStat5") := by
      simp [extract_text_from_child, hfind]
    rw [herr] at hv
    exact Except.noConfusion hv

/-- Witness for C8 at concrete inputs: a document with no matching
element makes `find_input_value_in_xml` fail with the not-found error. -/
theorem missing_field_fails_witness :
    find_input_value_in_xml (Element.mk "a" [] none []) "wrnhum" =
      .error (.valueError "Could not find value for id: wrnhum") :=
  missing_field_fails.1 (Element.mk "a" [] none []) "wrnhum" (by decide)

/-- C2: `AllOutletsConfig` decode is positional. Whenever the qualifying
rows of a document are `rs` (in document order) and decoding them in that
order succeeds with results `cs`, the decoded record's outlets are exactly
`cs` — outlet `i` comes from row `i`; each row decodes from the first
three of its input values (name, then the two parsed delays), with `id`
and `name` attributes playing no role; and the decode result depends only
on the qualifying-row list, so permuting the rows of the document permutes
the decoded outlets identically. -/
theorem allOutletsConfig_positional_decode :
    (∀ (e : Element) (cs : List IndividualOutletConfig),
        exceptMapM decodeRow (xpathRows e) = .ok cs → (xpathRows e).length = 8 →
        ∃ cfg, AllOutletsConfig.from_xml e = .ok cfg ∧ cfg.outlets = cs) ∧
    (∀ (r : Element) (v0 v1 v2 : String) (rest : List String) (n1 n2 : Int),
        tdInputValues r = v0 :: v1 :: v2 :: rest →
        parseInt? v1 = some n1 → parseInt? v2 = some n2 →
        decodeRow r = .ok ⟨v0, n1, n2⟩) ∧
    (∀ e1 e2 : Element, xpathRows e1 = xpathRows e2 →
        AllOutletsConfig.from_xml e1 = AllOutletsConfig.from_xml e2) := by
  refine ⟨?_, ?_, ?_⟩
  · intro e cs hm h8
    have hlen : cs.length = 8 := (exceptMapM_ok_length hm).trans h8
    rcases cs with _ | ⟨c0, cs⟩
    · simp at hlen
    rcases cs with _ | ⟨c1, cs⟩
    · simp at hlen
    rcases cs with _ | ⟨c2, cs⟩
    · simp at hlen
    rcases cs with _ | ⟨c3, cs⟩
    · simp at hlen
    rcases cs with _ | ⟨c4, cs⟩
    · simp at hlen
    rcases cs with _ | ⟨c5, cs⟩
    · simp at hlen
    rcases cs with _ | ⟨c6, cs⟩
    · simp at hlen
    rcases cs with _ | ⟨c7, cs⟩
    · simp at hlen
    rcases cs with _ | ⟨c8, cs⟩
    · refine ⟨⟨c0, c1, c2, c3, c4, c5, c6, c7⟩, ?_, rfl⟩
      rw [allOutlets_from_xml_bind, hm, ok_bind]
      rfl
    · simp at hlen
  · intro r v0 v1 v2 rest n1 n2 hvs hp1 hp2
    simp [decodeRow, hvs, ok_bind, pyIntOf, hp1, hp2, Except.map]
  · intro e1 e2 h
    rw [allOutlets_from_xml_bind, allOutlets_from_xml_bind, h]

/-- Witness for C2 at a concrete eight-row document: the decode succeeds
and assigns the rows in order. -/
theorem allOutletsConfig_positional_decode_witness :
    (xpathRows outletsDoc8).length = 8 ∧
    ∃ cfg, AllOutletsConfig.from_xml outletsDoc8 = .ok cfg ∧
      cfg.outlets =
        [⟨"a0", 0, 10⟩, ⟨"a1", 1, 11⟩, ⟨"a2", 2, 12⟩, ⟨"a3", 3, 13⟩,
         ⟨"a4", 4, 14⟩, ⟨"a5", 5, 15⟩, ⟨"a6", 6, 16⟩, ⟨"a7", 7, 17⟩] :=
  ⟨rfl, allOutletsConfig_positional_decode.1 outletsDoc8 _ rfl rfl⟩

/-- C7: whenever the number of qualifying rows is not exactly eight,
`AllOutletsConfig.from_xml` never returns a record; when every row itself
decodes, the failure is the `TypeError` of the final record construction
(the structural wrong-row-count failure of the spec's error taxonomy). -/
theorem allOutletsConfig_wrong_row_count :
    ∀ e : Element, (xpathRows e).length ≠ 8 →
      (∀ cfg, AllOutletsConfig.from_xml e ≠ .ok cfg) ∧
      (∀ cs, exceptMapM decodeRow (xpathRows e) = .ok cs →
        AllOutletsConfig.from_xml e = .error .typeError) := by
  intro e h
  constructor
  · intro cfg hok
    rw [allOutlets_from_xml_bind] at hok
    obtain ⟨cs, hm, hmk⟩ := except_bind_ok hok
    have hlen : cs.length ≠ 8 := by rw [exceptMapM_ok_length hm]; exact h
    rw [mkAllOutlets_wrong_len hlen] at hmk
    exact Except.noConfusion hmk
  · intro cs hm
    rw [allOutlets_from_xml_bind, hm, ok_bind]
    exact mkAllOutlets_wrong_len (by rw [exceptMapM_ok_length hm]; exact h)

/-- Witness for C7 at a concrete one-row document: the decode fails with
the record-construction error. -/
theorem allOutletsConfig_wrong_row_count_witness :
    (xpathRows outletsDoc1).length ≠ 8 ∧
    AllOutletsConfig.from_xml outletsDoc1 = .error .typeError :=
  ⟨by decide, (allOutletsConfig_wrong_row_count outletsDoc1 (by decide)).2 _ rfl⟩

/-- C6: `get_voltage` sends the fixed checksummed query frame, and a reply
is accepted exactly when it is 13 bytes long, starts with `A7 42 06 08`,
and equals `with_checksum` of its first 12 bytes (i.e. its last byte is
the checksum of the preceding 12 bytes); the returned voltage is then
byte index 4, the first byte of the payload window; any other reply —
an 11-byte reply in particular — is an error, so no value is ever
returned from an unvalidated frame. -/
theorem get_voltage_validation :
    voltage_query_frame = [0xa7, 0x40, 0x06, 0x00, 0xed] ∧
    (∀ (data : List Nat) (v : Nat),
      get_voltage_reply data = .ok v ↔
        data.length = 13 ∧ data.take 4 = [0xa7, 0x42, 0x06, 0x08] ∧
        data = with_checksum data.dropLast ∧ v = data.getD 4 0) ∧
    (∀ (front : List Nat) (lastByte : Nat), front.length = 12 →
      ((front ++ [lastByte]) = with_checksum ((front ++ [lastByte]).dropLast) ↔
        lastByte = front.foldl ones_comp_add 0)) ∧
    (∀ data : List Nat, data.length = 11 →
      get_voltage_reply data = .error .assertionError) := by
  refine ⟨by decide, ?_, ?_, ?_⟩
  · intro data v
    unfold get_voltage_reply
    split_ifs with h1 h2 h3
    · simp [h1]
    · simp [h2]
    · simp [h3]
    · push_neg at h1 h2 h3
      have hv : ((data.drop 4).take 8).getD 0 0 = data.getD 4 0 := by
        have h4 : (4 : Nat) < data.length := by omega
        simp [List.getD, List.getElem?_take, List.getElem?_drop]
      constructor
      · intro hok
        cases hok
        exact ⟨h1, h2, h3, hv⟩
      · intro ⟨_, _, _, hveq⟩
        rw [hveq, ← hv]
  · intro front lastByte hlen
    simp only [with_checksum, List.dropLast_concat]
    constructor
    · intro h
      have := List.append_inj_right h (by rfl)
      simpa using this
    · intro h
      rw [h]
  · intro data h
    simp [get_voltage_reply, h]

/-- Witness for C6 at concrete frames: a valid 13-byte reply carrying
payload first byte 230 decodes to voltage 230, and an 11-byte reply is
rejected. -/
theorem get_voltage_validation_witness :
    get_voltage_reply
        (with_checksum [0xa7, 0x42, 0x06, 0x08, 230, 0, 0, 0, 0, 0, 0, 0]) = .ok 230 ∧
    get_voltage_reply [0, 0, 0, 0, 0, 0, 0, 0, 0, 0, 0] = .error .assertionError :=
  ⟨(get_voltage_validation.2.1 _ 230).mpr (by decide),
    get_voltage_validation.2.2.2 _ (by decide)⟩

theorem decodeRow_rendered (nm : String) (d1 d2 : Int) (r : Element)
    (hr : tdInputValues r = [nm, renderInt d1, renderInt d2]) :
    decodeRow r = .ok ⟨nm, d1, d2⟩ := by
  simp [decodeRow, hr, ok_bind, pyIntOf_render, Except.map]

/-- C3: decoding a device-convention markup rendering of an encoded
record reproduces the record field for field — for `ThresholdsConfig`
(on valid values, i.e. with the float fields in canonical shortest-repr
decimal form), for every `NetworkConfiguration`, and for every
`AllOutletsConfig` through the `otlt{i}`/`ondly{i}`/`ofdly{i}` encoding
of `set_config_pdu_data`. -/
theorem config_roundtrip :
    (∀ t : ThresholdsConfig, t.warning_value_amps.canonical →
        t.overload_value_amps.canonical →
        ThresholdsConfig.from_xml (renderForm t.to_dict) = .ok t) ∧
    (∀ n : NetworkConfiguration,
        NetworkConfiguration.from_xml (renderNetworkForm n.to_dict) = .ok n) ∧
    (∀ a : AllOutletsConfig,
        AllOutletsConfig.from_xml (renderOutletsForm (set_config_pdu_data a)) = .ok a) := by
  refine ⟨?_, ?_, ?_⟩
  · intro t h1 h2
    obtain ⟨a1, a2, i1, i2, i3, i4, i5⟩ := t
    obtain ⟨-, hd1, -⟩ := h1
    obtain ⟨-, hd2, -⟩ := h2
    show (do
      let amps ← pyFloatOf (renderPyFloat a1)
      let oamps ← pyFloatOf (renderPyFloat a2)
      let v1 ← pyIntOf (renderInt i1)
      let v2 ← pyIntOf (renderInt i2)
      let v3 ← pyIntOf (renderInt i3)
      let v4 ← pyIntOf (renderInt i4)
      let v5 ← pyIntOf (renderInt i5)
      pure ⟨amps, oamps, v1, v2, v3, v4, v5⟩ : Except PyErr ThresholdsConfig) =
        .ok ⟨a1, a2, i1, i2, i3, i4, i5⟩
    rw [pyFloatOf_render a1 hd1, pyFloatOf_render a2 hd2, pyIntOf_render i1,
      pyIntOf_render i2, pyIntOf_render i3, pyIntOf_render i4, pyIntOf_render i5]
    rfl
  · intro n
    obtain ⟨h1, i1, m1, g1, dh, d1, d2⟩ := n
    cases dh <;> rfl
  · intro a
    have h0 : decodeRow (renderOutletRow (set_config_pdu_data a) 0) = .ok a.outlet0 :=
      decodeRow_rendered a.outlet0.name a.outlet0.turn_on_delay a.outlet0.turn_off_delay _ (by with_unfolding_all rfl)
    have h1 : decodeRow (renderOutletRow (set_config_pdu_data a) 1) = .ok a.outlet1 :=
      decodeRow_rendered a.outlet1.name a.outlet1.turn_on_delay a.outlet1.turn_off_delay _ (by with_unfolding_all rfl)
    have h2 : decodeRow (renderOutletRow (set_config_pdu_data a) 2) = .ok a.outlet2 :=
      decodeRow_rendered a.outlet2.name a.outlet2.turn_on_delay a.outlet2.turn_off_delay _ (by with_unfolding_all rfl)
    have h3 : decodeRow (renderOutletRow (set_config_pdu_data a) 3) = .ok a.outlet3 :=
      decodeRow_rendered a.outlet3.name a.outlet3.turn_on_delay a.outlet3.turn_off_delay _ (by with_unfolding_all rfl)
    have h4 : decodeRow (renderOutletRow (set_config_pdu_data a) 4) = .ok a.outlet4 :=
      decodeRow_rendered a.outlet4.name a.outlet4.turn_on_delay a.outlet4.turn_off_delay _ (by with_unfolding_all rfl)
    have h5 : decodeRow (renderOutletRow (set_config_pdu_data a) 5) = .ok a.outlet5 :=
      decodeRow_rendered a.outlet5.name a.outlet5.turn_on_delay a.outlet5.turn_off_delay _ (by with_unfolding_all rfl)
    have h6 : decodeRow (renderOutletRow (set_config_pdu_data a) 6) = .ok a.outlet6 :=
      decodeRow_rendered a.outlet6.name a.outlet6.turn_on_delay a.outlet6.turn_off_delay _ (by with_unfolding_all rfl)
    have h7 : decodeRow (renderOutletRow (set_config_pdu_data a) 7) = .ok a.outlet7 :=
      decodeRow_rendered a.outlet7.name a.outlet7.turn_on_delay a.outlet7.turn_off_delay _ (by with_unfolding_all rfl)
    rw [allOutlets_from_xml_bind,
      show xpathRows (renderOutletsForm (set_config_pdu_data a)) =
        [renderOutletRow (set_config_pdu_data a) 0, renderOutletRow (set_config_pdu_data a) 1,
         renderOutletRow (set_config_pdu_data a) 2, renderOutletRow (set_config_pdu_data a) 3,
         renderOutletRow (set_config_pdu_data a) 4, renderOutletRow (set_config_pdu_data a) 5,
         renderOutletRow (set_config_pdu_data a) 6, renderOutletRow (set_config_pdu_data a) 7]
        from rfl]
    simp only [exceptMapM, h0, h1, h2, h3, h4, h5, h6, h7, ok_bind]
    rfl

/-- Witness for C3 at a concrete thresholds configuration with canonical
float fields: the encode/render/decode round trip reproduces it. -/
theorem config_roundtrip_witness :
    thrFixture.warning_value_amps.canonical ∧
    thrFixture.overload_value_amps.canonical ∧
    ThresholdsConfig.from_xml (renderForm thrFixture.to_dict) = .ok thrFixture :=
  ⟨by decide, by decide, config_roundtrip.1 thrFixture (by decide) (by decide)⟩
